import Mathlib

/-!
Shallow embedding of `entrypoint.py` from the repository
`alexjurkiewicz/pr-comment-github-deployment`.

The program is a single linear pipeline: it reads a GitHub issue-comment
webhook event, checks that the comment is a deployment command on a pull
request, resolves a target environment, checks the combined commit status and
creates a deployment, posting feedback comments along the way.

Modelling conventions:
  * Python strings are modelled by Lean `String`, and the Python string
    operations used by the program (`startswith`, slicing `s[n:]`, `strip`,
    `len`) are modelled over the code-point list `String.data`, which matches
    Python's code-point semantics (`pyStartswith`, `pySliceFrom`, `pyStrip`,
    `pyLen`).  Python's `str.strip()` strips Unicode whitespace; we use
    `Char.isWhitespace`, which agrees on the ASCII whitespace appearing here.
  * Control flow by exceptions and `sys.exit` is modelled by the `Outcome`
    type: `ok` (normal return), `exit n` (`sys.exit(n)`), `failure msg`
    (`raise DeploymentFailure(msg)`), `fatal msg` (any other uncaught
    exception, e.g. `KeyError` or a JSON parse error; the Python process then
    dies with exit status 1 and a traceback, and no PR comment is posted).
  * HTTP responses are data supplied by a `World` value: the fetched pull
    request, the parsed environment-allowlist file (`none` models a file-read
    or JSON-parse error), the combined commit status, and whether the
    deployment POST returns 2xx.  Transport-level errors on the GET requests
    and on the feedback POSTs (\x22raise_for_status\x22) would propagate as
    uncaught exceptions; no claim concerns them and they are not modelled.
  * The outbound API calls a run performs are collected in a `List ApiCall`,
    and the pipeline stages a run completes in a `List Step`, so that
    statements about \x22no API call is issued\x22 and about the order of the
    stages are statements about these traces.
-/

namespace PRDeploy

/-- Result of running a piece of the program, see the conventions above:
`ok` = normal return, `exit n` = `sys.exit(n)`, `failure` = `DeploymentFailure`,
`fatal` = any other uncaught exception (process dies with status 1). -/
inductive Outcome (α : Type) where
  | ok : α → Outcome α
  | exit : Nat → Outcome α
  | failure : String → Outcome α
  | fatal : String → Outcome α
deriving Repr, DecidableEq

/-- Python `len(s)` (code points). -/
def pyLen (s : String) : Nat := s.data.length

/-- Python `s.startswith(pre)` (code-point prefix test). -/
def pyStartswith (s pre : String) : Bool := pre.data.isPrefixOf s.data

/-- Python `s[n:]` (code-point slice). -/
def pySliceFrom (s : String) (n : Nat) : String := ⟨s.data.drop n⟩

/-- Strip leading and trailing characters satisfying `Char.isWhitespace`. -/
def stripChars (l : List Char) : List Char :=
  ((l.dropWhile Char.isWhitespace).reverse.dropWhile Char.isWhitespace).reverse

/-- Python `s.strip()`. -/
def pyStrip (s : String) : String := ⟨stripChars s.data⟩

/-- The `CONFIG` dictionary built at startup (`entrypoint.py` lines 207-217).
`env_file` is `none` when `INPUT_ENVIRONMENT_VALIDATION_FILE` is unset or
empty (Python truthiness of the `if not CONFIG[\x22env_file\x22]` test). -/
structure Config where
  trigger : String
  env_file : Option String
  allow_draft : Bool
  ignore_status_checks : Bool
  comment : Bool
deriving Repr, DecidableEq

/-- The triggering comment object: `body`, `user.login` and `url`. -/
structure Comment where
  body : String
  author : String
  url : String
deriving Repr, DecidableEq

/-- The webhook event.  `hasIssue` is the truthiness of `event.get(\x22issue\x22)`,
`issuePullRequest` that of `event[\x22issue\x22].get(\x22pull_request\x22)`, and
`prUrl` the pull-request URL carried inside `issue.pull_request`. -/
structure Event where
  hasIssue : Bool
  action : String
  issuePullRequest : Bool
  prUrl : String
  comment : Comment
deriving Repr, DecidableEq

/-- The pull request as fetched from the API.  `merged_by` is the truthiness
of the `merged_by` field (present and non-null). -/
structure PullRequest where
  draft : Bool
  merged : Bool
  merged_by : Bool
  state : String
  mergeable_state : String
  head_sha : String
  head_repo : String
  number : Nat
  comments_url : String
deriving Repr, DecidableEq

/-- One record of the environment-allowlist JSON array.  `name = none` models
a JSON object that lacks the `name` key (accessing it raises `KeyError`);
`transient`/`production` are the optional keys read with `.get`. -/
structure EnvRecord where
  name : Option String
  transient : Option Bool
  production : Option Bool
deriving Repr, DecidableEq

/-- One sub-status of a combined commit status. -/
structure SubStatus where
  context : String
  state : String
deriving Repr, DecidableEq

/-- The combined commit status for a SHA. -/
structure CombinedStatus where
  state : String
  statuses : List SubStatus
deriving Repr, DecidableEq

/-- The JSON body of the deployment-creation POST (`entrypoint.py` lines
116-124).  `required_contexts = none` means the key is absent from the
payload; `some []` is the explicit empty list. -/
structure DeployParams where
  ref : String
  environment : String
  description : String
  transient_environment : Bool
  production_environment : Bool
  required_contexts : Option (List String)
deriving Repr, DecidableEq

/-- An outbound GitHub API call. -/
inductive ApiCall where
  | getPR (url : String)
  | getStatus (repo sha : String)
  | postDeployment (repo : String) (params : DeployParams)
  | postReaction (url : String)
  | postComment (url : String) (body : String)
deriving Repr, DecidableEq

/-- Whether a call posts an issue comment. -/
def ApiCall.isComment : ApiCall → Bool
  | .postComment _ _ => true
  | _ => false

/-- Whether a call creates a deployment. -/
def ApiCall.isDeployment : ApiCall → Bool
  | .postDeployment _ _ => true
  | _ => false

/-- The pipeline stages a run can complete, in the order `__main__` performs
them; a label is recorded when its stage finishes without raising. -/
inductive Step where
  | eventValidated
  | prLoaded
  | prValidated
  | parsed
  | envResolved
  | statusChecked
  | deploymentTriggered
  | notified
deriving Repr, DecidableEq

/-- `parse_message` (`entrypoint.py` lines 36-55): if the body does not start
with the trigger phrase, print and `sys.exit(0)`; otherwise the environment
name is the remainder after the prefix, stripped; raise `DeploymentFailure`
when it is empty. -/
def parse_message (cfg : Config) (comment : Comment) : Outcome String :=
  let message := comment.body
  if ¬ pyStartswith message cfg.trigger then
    Outcome.exit 0
  else
    let environment := pyStrip (pySliceFrom message (pyLen cfg.trigger))
    if environment = "" then
      Outcome.failure ("No environment specified (usage: `" ++ cfg.trigger ++ " environment`).")
    else
      Outcome.ok environment

/-- The `for env in envs` loop of `get_environment` (`entrypoint.py` lines
64-71): each record's `name` key is read (a missing key raises `KeyError`,
modelled as `fatal`) and compared; the first match is returned; falling off
the end raises `DeploymentFailure`. -/
def find_env (environment path : String) : List EnvRecord → Outcome EnvRecord
  | [] => Outcome.failure
      ("Environment '" ++ environment ++ "' doesn't exist in CONFIG['env_file'] (" ++ path ++ ").")
  | env :: rest =>
    match env.name with
    | none => Outcome.fatal "KeyError: 'name'"
    | some name =>
      if name = environment then Outcome.ok env else find_env environment path rest

/-- `get_environment` (`entrypoint.py` lines 58-71).  `fileContent` is the
parsed allowlist file; `none` models a file-read or JSON-parse error in
`json.load(open(...))`, which propagates as an uncaught (`fatal`) exception.
It is consulted only when a file is configured. -/
def get_environment (cfg : Config) (fileContent : Option (List EnvRecord))
    (environment : String) : Outcome EnvRecord :=
  match cfg.env_file with
  | none => Outcome.ok { name := some environment, transient := none, production := none }
  | some path =>
    match fileContent with
    | none => Outcome.fatal "json.load failed: file read or JSON parse error"
    | some envs => find_env environment path envs

/-- `validate_pr` (`entrypoint.py` lines 152-164). -/
def validate_pr (cfg : Config) (pr : PullRequest) : Outcome Unit :=
  if pr.draft && !cfg.allow_draft then
    Outcome.failure "Can't deploy draft PRs."
  else if pr.merged || pr.merged_by then
    Outcome.failure "Can't deploy a merged PR."
  else if pr.state ≠ "open" then
    Outcome.failure "Can't deploy a PR which isn't open."
  else
    if pr.mergeable_state ≠ "mergeable" then
      if pr.mergeable_state = "draft" && cfg.allow_draft then
        Outcome.ok ()
      else
        Outcome.failure "PR can't be cleanly merged with base branch."
    else
      Outcome.ok ()

/-- The bullet list of `check_commit`'s failure message: one `* context` line
per sub-status of the combined status, joined by newlines
(`entrypoint.py` line 101). -/
def status_list (statuses : List SubStatus) : String :=
  String.intercalate "\n" (statuses.map (fun s => "* " ++ s.context))

/-- `check_commit` (`entrypoint.py` lines 88-104): returns immediately when
status checks are ignored (no HTTP call); otherwise GETs the combined status
and raises `DeploymentFailure` listing every sub-status context when the
aggregate state is not `success`.  The second component is the list of API
calls the step issues. -/
def check_commit (cfg : Config) (head_repo sha : String)
    (status : CombinedStatus) : Outcome Unit × List ApiCall :=
  if cfg.ignore_status_checks then
    (Outcome.ok (), [])
  else
    let calls := [ApiCall.getStatus head_repo sha]
    if status.state ≠ "success" then
      (Outcome.failure ("The following status checks are not green for " ++ sha ++ ":\n"
          ++ status_list status.statuses ++ "."), calls)
    else
      (Outcome.ok (), calls)

/-- The deployment-creation payload built by `trigger_deployment`
(`entrypoint.py` lines 114-124), for an environment record whose `name` key
holds `name`: `transient_environment` defaults to `false`,
`production_environment` to `true`, and `required_contexts` is the explicit
empty list exactly when status checks are ignored (otherwise absent). -/
def deployment_params (cfg : Config) (ref name description : String)
    (env : EnvRecord) : DeployParams :=
  { ref := ref
    environment := name
    description := description
    transient_environment := env.transient.getD false
    production_environment := env.production.getD true
    required_contexts := if cfg.ignore_status_checks then some [] else none }

/-- `trigger_deployment` (`entrypoint.py` lines 107-140): reads
`environment[\x22name\x22]` (a missing key would raise `KeyError`), POSTs the
payload, and turns a non-2xx response (`deployOk = false`) into
`DeploymentFailure`.  The response-body text interpolated into that message
is not modelled. -/
def trigger_deployment (cfg : Config) (head_repo ref : String) (env : EnvRecord)
    (description : String) (deployOk : Bool) : Outcome Unit × List ApiCall :=
  match env.name with
  | none => (Outcome.fatal "KeyError: 'name'", [])
  | some name =>
    let params := deployment_params cfg ref name description env
    let calls := [ApiCall.postDeployment head_repo params]
    if deployOk then
      (Outcome.ok (), calls)
    else
      (Outcome.failure "Failed to trigger deployment (response body)", calls)

/-- `validate_event` (`entrypoint.py` lines 167-176): error exit 1 when the
event has no `issue`, silent exit 0 when the action is not `created` or the
issue is not a pull request. -/
def validate_event (event : Event) : Outcome Unit :=
  if ¬ event.hasIssue then
    Outcome.exit 1
  else if event.action ≠ "created" then
    Outcome.exit 0
  else if ¬ event.issuePullRequest then
    Outcome.exit 0
  else
    Outcome.ok ()

/-- The API calls `add_comment` issues (`entrypoint.py` lines 22-33): the
message is always printed, and POSTed to the comments URL only when
commenting is enabled. -/
def add_comment_calls (cfg : Config) (url msg : String) : List ApiCall :=
  if cfg.comment then [ApiCall.postComment url msg] else []

/-- The process environment at startup, as far as `entrypoint.py` lines
195-203 read it: whether `GITHUB_ACTION` is present, and the values (if any)
of `GITHUB_TOKEN` and `GITHUB_EVENT_PATH`. -/
structure Environ where
  github_action_present : Bool
  github_token : Option String
  github_event_path : Option String
deriving Repr, DecidableEq

/-- How the startup check ends: `exitWithHint` prints the
`Missing GITHUB_TOKEN environment variable. (hint: ...)` message and exits 1;
`fatalKeyError k` is an uncaught `KeyError` on `os.environ[k]` (exit status 1,
traceback, no hint); `ok` carries the token and event path. -/
inductive StartupResult where
  | exitWithHint
  | fatalKeyError (key : String)
  | ok (token eventPath : String)
deriving Repr, DecidableEq

/-- The startup check (`entrypoint.py` lines 195-203).  Note the condition
tested is membership of `GITHUB_ACTION` in the environment, while the hint
message printed names `GITHUB_TOKEN`; `GITHUB_TOKEN` itself is only read
afterwards by plain indexing, so its absence raises `KeyError`. -/
def startup (env : Environ) : StartupResult :=
  if ¬ env.github_action_present then
    StartupResult.exitWithHint
  else
    match env.github_token with
    | none => StartupResult.fatalKeyError "GITHUB_TOKEN"
    | some token =>
      match env.github_event_path with
      | none => StartupResult.fatalKeyError "GITHUB_EVENT_PATH"
      | some path => StartupResult.ok token path

/-- Modelled from the spec: `__main__` (line 230) and `load_pr` (line 77)
read `CONFIG[\x22pr_url\x22]`, but no statement under src/ ever assigns that
key of `CONFIG` — the assignment is missing from the source as given.  The
spec's PR loader step \x22fetches the pull request\x22 the comment was made on,
whose URL the webhook event carries in `issue.pull_request`; the missing
assignment is therefore modelled as that URL. -/
def pr_url (event : Event) : String := event.prUrl

/-- The world a run executes against: the webhook event and the responses the
external API and filesystem would give (see the module conventions). -/
structure World where
  event : Event
  pr : PullRequest
  envFile : Option (List EnvRecord)
  status : CombinedStatus
  deployOk : Bool
deriving Repr, DecidableEq

/-- What a whole run produces: how the process ends, the outbound API calls
it issued, and the pipeline stages it completed, both in order. -/
structure MainResult where
  outcome : Outcome Unit
  calls : List ApiCall
  steps : List Step
deriving Repr, DecidableEq

/-- The process exit status a `MainResult` stands for: `sys.exit(n)` exits
with `n`, normal completion with 0, and an uncaught exception (either kind)
with 1. -/
def MainResult.exitCode : MainResult → Nat
  | ⟨Outcome.ok _, _, _⟩ => 0
  | ⟨Outcome.exit n, _, _⟩ => n
  | ⟨Outcome.failure _, _, _⟩ => 1
  | ⟨Outcome.fatal _, _, _⟩ => 1

/-- The `__main__` pipeline after startup (`entrypoint.py` lines 225-270):
validate the event; GET the pull request; then a first `try` block running
`validate_pr` and THEN `parse_message` (lines 238-243), whose
`DeploymentFailure` is reported as a `Deployment failed:` comment and exit 1,
and whose `sys.exit(0)` (non-matching comment) propagates; then a second
`try` block running `get_environment`, `check_commit` and
`trigger_deployment`, whose `DeploymentFailure` is reported as a
`Deployment to ... failed:` comment and exit 1; on success, a rocket reaction
is POSTed and a success comment added.  `fatal` outcomes propagate past both
handlers with no comment. -/
def main_run (cfg : Config) (w : World) : MainResult :=
  match validate_event w.event with
  | Outcome.ok _ =>
    let calls1 : List ApiCall := [ApiCall.getPR (pr_url w.event)]
    let steps1 : List Step := [Step.eventValidated, Step.prLoaded]
    match validate_pr cfg w.pr with
    | Outcome.failure e =>
      ⟨Outcome.exit 1,
        calls1 ++ add_comment_calls cfg w.pr.comments_url ("Deployment failed: " ++ e),
        steps1⟩
    | Outcome.exit n => ⟨Outcome.exit n, calls1, steps1⟩
    | Outcome.fatal m => ⟨Outcome.fatal m, calls1, steps1⟩
    | Outcome.ok _ =>
      match parse_message cfg w.event.comment with
      | Outcome.exit n => ⟨Outcome.exit n, calls1, steps1 ++ [Step.prValidated]⟩
      | Outcome.failure e =>
        ⟨Outcome.exit 1,
          calls1 ++ add_comment_calls cfg w.pr.comments_url ("Deployment failed: " ++ e),
          steps1 ++ [Step.prValidated]⟩
      | Outcome.fatal m => ⟨Outcome.fatal m, calls1, steps1 ++ [Step.prValidated]⟩
      | Outcome.ok environment_name =>
        let steps2 := steps1 ++ [Step.prValidated, Step.parsed]
        match get_environment cfg w.envFile environment_name with
        | Outcome.fatal m => ⟨Outcome.fatal m, calls1, steps2⟩
        | Outcome.exit n => ⟨Outcome.exit n, calls1, steps2⟩
        | Outcome.failure e =>
          ⟨Outcome.exit 1,
            calls1 ++ add_comment_calls cfg w.pr.comments_url
              ("Deployment to " ++ environment_name ++ " failed: " ++ e),
            steps2⟩
        | Outcome.ok environment =>
          let steps3 := steps2 ++ [Step.envResolved]
          let cc := check_commit cfg w.pr.head_repo w.pr.head_sha w.status
          match cc.1 with
          | Outcome.fatal m => ⟨Outcome.fatal m, calls1 ++ cc.2, steps3⟩
          | Outcome.exit n => ⟨Outcome.exit n, calls1 ++ cc.2, steps3⟩
          | Outcome.failure e =>
            ⟨Outcome.exit 1,
              calls1 ++ cc.2 ++ add_comment_calls cfg w.pr.comments_url
                ("Deployment to " ++ environment_name ++ " failed: " ++ e),
              steps3⟩
          | Outcome.ok _ =>
            let steps4 := steps3 ++ [Step.statusChecked]
            let td := trigger_deployment cfg w.pr.head_repo w.pr.head_sha environment
              ("Automatic deployment from #" ++ toString w.pr.number) w.deployOk
            match td.1 with
            | Outcome.fatal m => ⟨Outcome.fatal m, calls1 ++ cc.2 ++ td.2, steps4⟩
            | Outcome.exit n => ⟨Outcome.exit n, calls1 ++ cc.2 ++ td.2, steps4⟩
            | Outcome.failure e =>
              ⟨Outcome.exit 1,
                calls1 ++ cc.2 ++ td.2 ++ add_comment_calls cfg w.pr.comments_url
                  ("Deployment to " ++ environment_name ++ " failed: " ++ e),
                steps4⟩
            | Outcome.ok _ =>
              ⟨Outcome.ok (),
                calls1 ++ cc.2 ++ td.2
                  ++ [ApiCall.postReaction (w.event.comment.url ++ "/reactions")]
                  ++ add_comment_calls cfg w.pr.comments_url
                    ("@" ++ w.event.comment.author
                      ++ ": Triggered [deployment](https://github.com/" ++ w.pr.head_repo
                      ++ "/deployments) to " ++ environment_name ++ "."),
                steps4 ++ [Step.deploymentTriggered, Step.notified]⟩
  | Outcome.exit n => ⟨Outcome.exit n, [], []⟩
  | Outcome.failure m => ⟨Outcome.failure m, [], []⟩
  | Outcome.fatal m => ⟨Outcome.fatal m, [], []⟩

/-- The stage labels of one full successful run, in the order `__main__`
performs the stages. -/
def canonicalSteps : List Step :=
  [Step.eventValidated, Step.prLoaded, Step.prValidated, Step.parsed,
   Step.envResolved, Step.statusChecked, Step.deploymentTriggered, Step.notified]

/-- C1.  The startup check tests membership of `GITHUB_ACTION` in the
environment, not `GITHUB_TOKEN`, although its message names `GITHUB_TOKEN`:
with `GITHUB_ACTION` present and `GITHUB_TOKEN` absent the process dies with
an uncaught `KeyError` (no hint message), and with `GITHUB_ACTION` absent the
hint-and-exit-1 path is taken even though `GITHUB_TOKEN` is present. -/
theorem C1_startup_checks_wrong_variable :
    startup ⟨true, none, some "/github/workflow/event.json"⟩
        = StartupResult.fatalKeyError "GITHUB_TOKEN" ∧
    startup ⟨false, some "token", some "/github/workflow/event.json"⟩
        = StartupResult.exitWithHint := by
  constructor <;> rfl

/-- C4.  `validate_pr` raises `DeploymentFailure` exactly when: the PR is a
draft and drafts are disallowed, or it is merged (flag or `merged_by`), or
its state is not `open`, or its mergeable state is not `mergeable` (except a
`draft` mergeable state with drafts allowed); the checks run in that order
and the first failing one determines the message. -/
theorem C4_validate_pr_characterization (cfg : Config) (pr : PullRequest) :
    ((∃ m, validate_pr cfg pr = Outcome.failure m) ↔
      ((pr.draft = true ∧ cfg.allow_draft = false) ∨ pr.merged = true ∨ pr.merged_by = true
        ∨ pr.state ≠ "open"
        ∨ (pr.mergeable_state ≠ "mergeable"
            ∧ ¬(pr.mergeable_state = "draft" ∧ cfg.allow_draft = true)))) ∧
    ((pr.draft = true ∧ cfg.allow_draft = false) →
        validate_pr cfg pr = Outcome.failure "Can't deploy draft PRs.") ∧
    (¬(pr.draft = true ∧ cfg.allow_draft = false) → (pr.merged = true ∨ pr.merged_by = true) →
        validate_pr cfg pr = Outcome.failure "Can't deploy a merged PR.") ∧
    (¬(pr.draft = true ∧ cfg.allow_draft = false) → ¬(pr.merged = true ∨ pr.merged_by = true) →
        pr.state ≠ "open" →
        validate_pr cfg pr = Outcome.failure "Can't deploy a PR which isn't open.") ∧
    (¬(pr.draft = true ∧ cfg.allow_draft = false) → ¬(pr.merged = true ∨ pr.merged_by = true) →
        pr.state = "open" → pr.mergeable_state ≠ "mergeable" →
        ¬(pr.mergeable_state = "draft" ∧ cfg.allow_draft = true) →
        validate_pr cfg pr = Outcome.failure "PR can't be cleanly merged with base branch.") := by
  unfold validate_pr
  split_ifs with h1 h2 h3 h4 h5 <;> simp_all
  tauto

/-- C5.  When status checks are not ignored and the combined state is not
`success`, `check_commit` raises a `DeploymentFailure` whose message lists
the context of EVERY sub-status of the combined status, whatever each
sub-status's own state. -/
theorem C5_failure_lists_every_context (cfg : Config) (head_repo sha : String)
    (status : CombinedStatus) (h1 : cfg.ignore_status_checks = false)
    (h2 : status.state ≠ "success") :
    (check_commit cfg head_repo sha status).1 =
      Outcome.failure ("The following status checks are not green for " ++ sha ++ ":\n"
        ++ String.intercalate "\n" (status.statuses.map (fun s => "* " ++ s.context))
        ++ ".") := by
  simp [check_commit, h1, h2, status_list]

/-- C5 witness: a combined status aggregate `failure` whose sub-statuses are
one successful and one failed check; both contexts appear in the message. -/
theorem C5_failure_lists_every_context_witness :
    (check_commit ⟨"deploy to", none, false, false, true⟩ "octo/repo" "abc123"
        ⟨"failure", [⟨"ci/build", "success"⟩, ⟨"ci/test", "failure"⟩]⟩).1 =
      Outcome.failure
        "The following status checks are not green for abc123:\n* ci/build\n* ci/test." := by
  simpa using C5_failure_lists_every_context ⟨"deploy to", none, false, false, true⟩
    "octo/repo" "abc123" ⟨"failure", [⟨"ci/build", "success"⟩, ⟨"ci/test", "failure"⟩]⟩
    rfl (by decide)

/-- C7.  With `ignore_status_checks` set, `check_commit` returns at once with
no API call and the deployment payload carries an explicit empty
`required_contexts` list; with it unset, `required_contexts` is absent.  The
payload `trigger_deployment` POSTs is exactly `deployment_params`. -/
theorem C7_ignore_status_checks_payload (cfg : Config)
    (head_repo sha ref name description : String)
    (status : CombinedStatus) (env : EnvRecord) :
    (cfg.ignore_status_checks = true →
      check_commit cfg head_repo sha status = (Outcome.ok (), []) ∧
      (deployment_params cfg ref name description env).required_contexts = some []) ∧
    (cfg.ignore_status_checks = false →
      (deployment_params cfg ref name description env).required_contexts = none) ∧
    (∀ b : Bool, env.name = some name →
      (trigger_deployment cfg head_repo ref env description b).2 =
        [ApiCall.postDeployment head_repo (deployment_params cfg ref name description env)]) := by
  refine ⟨fun h => ?_, fun h => ?_, fun b h => ?_⟩
  · simp [check_commit, deployment_params, h]
  · simp [deployment_params, h]
  · cases b <;> simp [trigger_deployment, h]

/-- Helper: the loop of `get_environment` agrees with `List.find?` on the
name field, provided every record carries a `name` key. -/
theorem find_env_eq_find? (environment path : String) (envs : List EnvRecord)
    (h : ∀ e ∈ envs, e.name.isSome) :
    find_env environment path envs =
      match envs.find? (fun e => e.name == some environment) with
      | some r => Outcome.ok r
      | none => Outcome.failure ("Environment '" ++ environment
          ++ "' doesn't exist in CONFIG['env_file'] (" ++ path ++ ").") := by
  induction envs with
  | nil => rfl
  | cons a l ih =>
    obtain ⟨n, hn⟩ := Option.isSome_iff_exists.mp (h a (by simp))
    have hfind : (a :: l).find? (fun e => e.name == some environment)
        = if n = environment then some a
          else l.find? (fun e => e.name == some environment) := by
      by_cases he : n = environment <;> simp [List.find?_cons, hn, he]
    by_cases he : n = environment
    · simp [find_env, hn, he, hfind]
    · rw [hfind, if_neg he]
      simp only [find_env, hn]
      rw [if_neg he]
      exact ih fun e hm => h e (by simp [hm])

/-- C6.  `get_environment`: with no allowlist file configured it returns the
bare requested record unconditionally; with a file configured, a failed read
or parse is a fatal uncaught error (never a `DeploymentFailure`), and on a
parsed array it returns the first record whose `name` equals the request,
raising `DeploymentFailure` exactly when none matches. -/
theorem C6_get_environment_resolution (cfg : Config) (environment : String)
    (fileContent : Option (List EnvRecord)) :
    (cfg.env_file = none →
        get_environment cfg fileContent environment
          = Outcome.ok ⟨some environment, none, none⟩) ∧
    (∀ path, cfg.env_file = some path → fileContent = none →
        get_environment cfg fileContent environment
            = Outcome.fatal "json.load failed: file read or JSON parse error"
          ∧ ∀ m, get_environment cfg fileContent environment ≠ Outcome.failure m) ∧
    (∀ path envs, cfg.env_file = some path → fileContent = some envs →
        (∀ e ∈ envs, e.name.isSome) →
        get_environment cfg fileContent environment =
          match envs.find? (fun e => e.name == some environment) with
          | some r => Outcome.ok r
          | none => Outcome.failure ("Environment '" ++ environment
              ++ "' doesn't exist in CONFIG['env_file'] (" ++ path ++ ").")) := by
  refine ⟨fun h => ?_, fun path hp hc => ?_, fun path envs hp hc hn => ?_⟩
  · simp [get_environment, h]
  · subst hc; simp [get_environment, hp]
  · subst hc
    simp only [get_environment, hp]
    exact find_env_eq_find? environment path envs hn

/-- Helper: the loop of `get_environment` skips any block of records whose
names are all present and different from the request. -/
theorem find_env_skip (environment path : String) (pre l : List EnvRecord)
    (hpre : ∀ p ∈ pre, ∃ n, p.name = some n ∧ n ≠ environment) :
    find_env environment path (pre ++ l) = find_env environment path l := by
  induction pre with
  | nil => rfl
  | cons a t ih =>
    obtain ⟨n, hn, hne⟩ := hpre a (by simp)
    simp only [List.cons_append, find_env, hn]
    rw [if_neg hne]
    exact ih fun p hp => hpre p (by simp [hp])

/-- C10.  With an allowlist configured, `get_environment` scans the array in
order and stops at the first record whose name matches: whatever stands after
the match is never examined; and a record that lacks the `name` key, placed
before any match, aborts the scan with an uncaught `KeyError`, not a
`DeploymentFailure`. -/
theorem C10_first_match_and_keyerror (cfg : Config) (path environment : String)
    (pre : List EnvRecord) (hf : cfg.env_file = some path)
    (hpre : ∀ p ∈ pre, ∃ n, p.name = some n ∧ n ≠ environment) :
    (∀ r post, r.name = some environment →
        get_environment cfg (some (pre ++ r :: post)) environment = Outcome.ok r) ∧
    (∀ bad rest, bad.name = none →
        get_environment cfg (some (pre ++ bad :: rest)) environment
          = Outcome.fatal "KeyError: 'name'") := by
  constructor
  · intro r post hr
    simp [get_environment, hf, find_env_skip environment path pre _ hpre, find_env, hr]
  · intro bad rest hb
    simp [get_environment, hf, find_env_skip environment path pre _ hpre, find_env, hb]

/-- C10 witness: requesting `prod` against
`[staging, prod, record-without-name]` returns the `prod` record; the
malformed record after the match is never read.  Requesting anything that
forces the scan past a nameless record is a fatal `KeyError`. -/
theorem C10_first_match_and_keyerror_witness :
    get_environment ⟨"deploy to", some "envs.json", false, false, true⟩
        (some [⟨some "staging", none, none⟩, ⟨some "prod", none, some true⟩,
               ⟨none, none, none⟩]) "prod"
      = Outcome.ok ⟨some "prod", none, some true⟩ ∧
    get_environment ⟨"deploy to", some "envs.json", false, false, true⟩
        (some [⟨some "staging", none, none⟩, ⟨none, none, none⟩, ⟨some "qa", none, none⟩])
        "qa"
      = Outcome.fatal "KeyError: 'name'" := by
  have hpre : ∀ p ∈ [(⟨some "staging", none, none⟩ : EnvRecord)],
      ∃ n, p.name = some n ∧ n ≠ "prod" := by
    intro p hp
    simp only [List.mem_singleton] at hp
    subst hp
    exact ⟨"staging", rfl, by decide⟩
  have hpre2 : ∀ p ∈ [(⟨some "staging", none, none⟩ : EnvRecord)],
      ∃ n, p.name = some n ∧ n ≠ "qa" := by
    intro p hp
    simp only [List.mem_singleton] at hp
    subst hp
    exact ⟨"staging", rfl, by decide⟩
  exact ⟨(C10_first_match_and_keyerror ⟨"deploy to", some "envs.json", false, false, true⟩
      "envs.json" "prod" [⟨some "staging", none, none⟩] rfl hpre).1
      ⟨some "prod", none, some true⟩ [⟨none, none, none⟩] rfl,
    (C10_first_match_and_keyerror ⟨"deploy to", some "envs.json", false, false, true⟩
      "envs.json" "qa" [⟨some "staging", none, none⟩] rfl hpre2).2
      ⟨none, none, none⟩ [⟨some "qa", none, none⟩] rfl⟩

/-- C8.  For a comment body that starts with the trigger phrase,
`parse_message` yields the remainder after the prefix, whitespace-stripped,
as the environment name, and raises `DeploymentFailure` exactly when that
stripped remainder is empty — in particular for a body equal to the trigger
phrase itself. -/
theorem C8_parse_strip_and_empty (cfg : Config) (c : Comment)
    (h : pyStartswith c.body cfg.trigger = true) :
    (pyStrip (pySliceFrom c.body (pyLen cfg.trigger)) ≠ "" →
        parse_message cfg c
          = Outcome.ok (pyStrip (pySliceFrom c.body (pyLen cfg.trigger)))) ∧
    (pyStrip (pySliceFrom c.body (pyLen cfg.trigger)) = "" →
        parse_message cfg c = Outcome.failure
          ("No environment specified (usage: `" ++ cfg.trigger ++ " environment`).")) ∧
    (c.body = cfg.trigger →
        parse_message cfg c = Outcome.failure
          ("No environment specified (usage: `" ++ cfg.trigger ++ " environment`).")) := by
  refine ⟨fun hne => ?_, fun he => ?_, fun hb => ?_⟩
  · simp [parse_message, h, hne]
  · simp [parse_message, h, he]
  · have he : pyStrip (pySliceFrom c.body (pyLen cfg.trigger)) = "" := by
      rw [hb]
      show pyStrip ⟨cfg.trigger.data.drop cfg.trigger.data.length⟩ = ""
      rw [List.drop_length]
      rfl
    simp [parse_message, h, he]

/-- C8 witness: `deploy to   prod  ` parses to environment `prod`, and a
comment equal to the trigger phrase raises the usage failure. -/
theorem C8_parse_strip_and_empty_witness :
    parse_message ⟨"deploy to", none, false, false, true⟩ ⟨"deploy to   prod  ", "alex", "u"⟩
      = Outcome.ok "prod" ∧
    parse_message ⟨"deploy to", none, false, false, true⟩ ⟨"deploy to", "alex", "u"⟩
      = Outcome.failure "No environment specified (usage: `deploy to environment`)." := by
  constructor
  · exact ((C8_parse_strip_and_empty ⟨"deploy to", none, false, false, true⟩
      ⟨"deploy to   prod  ", "alex", "u"⟩ (by decide)).1 (by decide)).trans (by decide)
  · exact ((C8_parse_strip_and_empty ⟨"deploy to", none, false, false, true⟩
      ⟨"deploy to", "alex", "u"⟩ (by decide)).2.2 rfl).trans (by decide)

/-- Helper: a list ending in a character the predicate rejects never
drops to nothing under `dropWhile`. -/
theorem dropWhile_append_singleton_ne_nil (p : Char → Bool) (l : List Char) (c : Char)
    (h : p c = false) : (l ++ [c]).dropWhile p ≠ [] := by
  induction l with
  | nil => simp [List.dropWhile, h]
  | cons a t ih =>
    by_cases ha : p a <;> simp [List.dropWhile_cons, ha, ih]

/-- Helper: stripping a list whose first character is not whitespace leaves
something. -/
theorem stripChars_cons_ne_nil (c : Char) (cs : List Char) (h : c.isWhitespace = false) :
    stripChars (c :: cs) ≠ [] := by
  unfold stripChars
  rw [List.dropWhile_cons, if_neg (by simp [h])]
  rw [List.reverse_cons]
  simp only [ne_eq, List.reverse_eq_nil_iff]
  exact dropWhile_append_singleton_ne_nil _ _ _ h

/-- C9.  The trigger match is a bare string-prefix test with no
word-boundary requirement: a body that is the trigger phrase immediately
followed by a non-whitespace character is accepted, and the environment name
is the stripped suffix. -/
theorem C9_no_word_boundary (cfg : Config) (author curl : String) (c : Char)
    (cs : List Char) (h : c.isWhitespace = false) :
    parse_message cfg ⟨cfg.trigger ++ String.mk (c :: cs), author, curl⟩
      = Outcome.ok (pyStrip (String.mk (c :: cs))) := by
  have hdata : (cfg.trigger ++ String.mk (c :: cs)).data
      = cfg.trigger.data ++ (c :: cs) := String.data_append _ _
  have hpre : pyStartswith (cfg.trigger ++ String.mk (c :: cs)) cfg.trigger = true := by
    rw [pyStartswith, hdata]
    simp [List.isPrefixOf_iff_prefix]
  have hslice : pySliceFrom (cfg.trigger ++ String.mk (c :: cs)) (pyLen cfg.trigger)
      = String.mk (c :: cs) := by
    rw [pySliceFrom, pyLen, hdata]
    simp
  have hne : pyStrip (String.mk (c :: cs)) ≠ "" := fun hcontr =>
    stripChars_cons_ne_nil c cs h (congrArg String.data hcontr)
  simp [parse_message, hpre, hslice, hne]

/-- C9 witness: with trigger phrase `deploy to`, the body `deploy toprod`
(no separator) is accepted as a command for environment `prod`. -/
theorem C9_no_word_boundary_witness :
    parse_message ⟨"deploy to", none, false, false, true⟩ ⟨"deploy toprod", "alex", "u"⟩
      = Outcome.ok "prod" := by
  exact (C9_no_word_boundary ⟨"deploy to", none, false, false, true⟩ "alex" "u"
    'p' ['r', 'o', 'd'] (by decide)).trans (by decide)

/-- Helper: a body that does not start with the trigger phrase makes
`parse_message` print and `sys.exit(0)`. -/
theorem parse_message_not_match (cfg : Config) (c : Comment)
    (h : pyStartswith c.body cfg.trigger = false) :
    parse_message cfg c = Outcome.exit 0 := by
  simp [parse_message, h]

/-- A default configuration: trigger `deploy to`, no allowlist file, drafts
disallowed, status checks enforced, commenting enabled. -/
def cfgDefault : Config := ⟨"deploy to", none, false, false, true⟩

/-- A well-formed `created` pull-request comment event with the given body. -/
def validEvent (body : String) : Event :=
  ⟨true, "created", true, "https://api.github.com/repos/octo/repo/pulls/7",
    ⟨body, "alex", "https://api.github.com/repos/octo/repo/issues/comments/42"⟩⟩

/-- An open, unmerged, cleanly mergeable, non-draft pull request. -/
def openPR : PullRequest :=
  ⟨false, false, false, "open", "mergeable", "abc123", "octo/repo", 7,
    "https://api.github.com/repos/octo/repo/issues/7/comments"⟩

/-- The same pull request as a draft. -/
def draftPR : PullRequest := { openPR with draft := true, mergeable_state := "draft" }

/-- A green combined commit status. -/
def greenStatus : CombinedStatus := ⟨"success", [⟨"ci/build", "success"⟩]⟩

/-- C2 counterexample: on a valid PR comment-created event whose body
`lgtm!` does not start with the trigger phrase, but whose pull request is a
draft, the run exits 1 and posts a failure comment — because `__main__` runs
`validate_pr` before `parse_message`, the claimed exit-0-no-calls behaviour
fails for this pull-request state. -/
theorem C2_trigger_skip_counterexample :
    pyStartswith (validEvent "lgtm!").comment.body cfgDefault.trigger = false ∧
    validate_event (validEvent "lgtm!") = Outcome.ok () ∧
    (main_run cfgDefault ⟨validEvent "lgtm!", draftPR, none, greenStatus, true⟩).exitCode
      = 1 ∧
    (main_run cfgDefault ⟨validEvent "lgtm!", draftPR, none, greenStatus, true⟩).calls.any
        ApiCall.isComment = true := by
  refine ⟨by decide, by decide, by decide, by decide⟩

/-- C2 as amended: on a valid event with a non-matching body, WHEN the pull
request passes validation the run exits 0 with no deployment-creation and no
comment-posting call; when validation fails instead, the run exits 1 with no
deployment call but posts a failure comment whenever commenting is
enabled, although the comment never matched the trigger. -/
theorem C2_no_trigger_exit_amended (cfg : Config) (w : World)
    (hev : validate_event w.event = Outcome.ok ())
    (hm : pyStartswith w.event.comment.body cfg.trigger = false) :
    (validate_pr cfg w.pr = Outcome.ok () →
        (main_run cfg w).exitCode = 0 ∧
        (main_run cfg w).calls.any ApiCall.isComment = false ∧
        (main_run cfg w).calls.any ApiCall.isDeployment = false) ∧
    (∀ m, validate_pr cfg w.pr = Outcome.failure m →
        (main_run cfg w).exitCode = 1 ∧
        (main_run cfg w).calls.any ApiCall.isDeployment = false ∧
        (main_run cfg w).calls.any ApiCall.isComment = cfg.comment) := by
  have hpm := parse_message_not_match cfg w.event.comment hm
  constructor
  · intro hpr
    simp only [main_run, hev, hpr, hpm]
    refine ⟨rfl, ?_, ?_⟩ <;> simp [ApiCall.isComment, ApiCall.isDeployment]
  · intro m hpr
    simp only [main_run, hev, hpr]
    refine ⟨rfl, ?_, ?_⟩ <;>
      cases hcom : cfg.comment <;>
        simp [add_comment_calls, hcom, ApiCall.isComment, ApiCall.isDeployment]

/-- C2 amended witness: the non-matching body `lgtm!` on a valid open PR
exits 0 with no comment and no deployment call. -/
theorem C2_no_trigger_exit_amended_witness :
    (main_run cfgDefault ⟨validEvent "lgtm!", openPR, none, greenStatus, true⟩).exitCode
      = 0 ∧
    (main_run cfgDefault ⟨validEvent "lgtm!", openPR, none, greenStatus, true⟩).calls.any
        ApiCall.isComment = false ∧
    (main_run cfgDefault ⟨validEvent "lgtm!", openPR, none, greenStatus, true⟩).calls.any
        ApiCall.isDeployment = false :=
  (C2_no_trigger_exit_amended cfgDefault
    ⟨validEvent "lgtm!", openPR, none, greenStatus, true⟩ (by decide) (by decide)).1
    (by decide)

/-- C3 counterexample: one full successful run records the stages in the
order event validation, PR load, PR validation, comment parsing, environment
resolution, status check, deployment trigger, notification — the PR
validator runs strictly BEFORE the command parser, not after it as the
claimed order `... → PARSED → PR_VALIDATED → ...` would have it. -/
theorem C3_order_counterexample :
    (main_run cfgDefault
        ⟨validEvent "deploy to staging", openPR, none, greenStatus, true⟩).steps
      = canonicalSteps ∧
    (main_run cfgDefault
        ⟨validEvent "deploy to staging", openPR, none, greenStatus, true⟩).steps.indexOf
        Step.prValidated
      < (main_run cfgDefault
          ⟨validEvent "deploy to staging", openPR, none, greenStatus, true⟩).steps.indexOf
          Step.parsed := by
  refine ⟨by decide, by decide⟩

/-- C3 as amended: in every invocation the completed stages form a prefix of
the order event validation, PR load, PR validation, comment parsing,
environment resolution, status check, deployment trigger, notification — so
the PR validator always runs before the command parser. -/
theorem C3_order_amended (cfg : Config) (w : World) :
    List.isPrefixOf (main_run cfg w).steps canonicalSteps = true := by
  simp only [main_run]
  repeat' split <;> try rfl

end PRDeploy
